import Mathlib

/-!
Verification of the extraction-and-normalization pipeline of the receipt
tracker application (source: `src/inngest/agent.ts`).

The JavaScript values flowing through `validateReceiptData` are modelled by
the inductive type `JSVal`; JS numbers are idealized as rationals, with `nan`
a separate constructor (every numeric field of the normalized output is built
by the JS expression `Number(x) || d`, which can never evaluate to `NaN`
because `NaN` is falsy, so the normalized record can use plain `ℚ`).
Stateful parts (the background-job steps) are modelled by explicit
environments carrying the outcome of each remote call, producing the ordered
trace of network calls and the step result.
-/

instance exceptDecEq {ε α : Type} [DecidableEq ε] [DecidableEq α] :
    DecidableEq (Except ε α) := fun x y =>
  match x, y with
  | .ok a, .ok b =>
      if h : a = b then .isTrue (by rw [h]) else .isFalse (by intro hc; cases hc; exact h rfl)
  | .error a, .error b =>
      if h : a = b then .isTrue (by rw [h]) else .isFalse (by intro hc; cases hc; exact h rfl)
  | .ok _, .error _ => .isFalse (by intro hc; cases hc)
  | .error _, .ok _ => .isFalse (by intro hc; cases hc)

/-- A JavaScript runtime value, as far as `validateReceiptData` can observe
it: `null`, `undefined`, booleans, (non-NaN) numbers, `NaN`, strings, arrays
and plain objects (a list of own properties). -/
inductive JSVal : Type where
  | null
  | undef
  | bool (b : Bool)
  | num (q : ℚ)
  | nan
  | str (s : String)
  | arr (xs : List JSVal)
  | obj (fs : List (String × JSVal))

/-- JS truthiness: `false`, `0`, `NaN`, `""`, `null` and `undefined` are
falsy; every object (arrays included) is truthy. -/
def truthy : JSVal → Bool
  | .null => false
  | .undef => false
  | .bool b => b
  | .num q => q != 0
  | .nan => false
  | .str s => s != ""
  | .arr _ => true
  | .obj _ => true

/-- JS `typeof`. Note `typeof null = "object"` and `typeof [] = "object"`. -/
def typeof : JSVal → String
  | .null => "object"
  | .undef => "undefined"
  | .bool _ => "boolean"
  | .num _ => "number"
  | .nan => "number"
  | .str _ => "string"
  | .arr _ => "object"
  | .obj _ => "object"

/-- Property read `v[k]` on a non-nullish value: own property of an object,
`undefined` on primitives and on arrays (the keys read by the normalizer are
never array indices or built-ins). Only applied where the source guarantees
`v` is not `null`/`undefined`. -/
def jsGet : JSVal → String → JSVal
  | .obj fs, k => (List.lookup k fs).getD JSVal.undef
  | _, _ => JSVal.undef

/-- Property read that models the TypeError JS throws when reading a property
of `null`/`undefined` (reachable in the normalizer via `d.items.map`). -/
def jsGetChecked : JSVal → String → Except String JSVal
  | .null, _ => .error "Cannot read properties of null"
  | .undef, _ => .error "Cannot read properties of undefined"
  | v, k => .ok (jsGet v k)

/-- JS `a || b`. -/
def jsOr (a b : JSVal) : JSVal := if truthy a then a else b

/-- `String.prototype.trim` (ASCII-whitespace model), implemented over the
character list so that it evaluates by kernel reduction. -/
def jsTrim (s : String) : String :=
  String.mk (((s.toList.dropWhile Char.isWhitespace).reverse.dropWhile Char.isWhitespace).reverse)

/-- `String.prototype.toUpperCase` (ASCII model). -/
def jsToUpper (s : String) : String := String.mk (s.toList.map Char.toUpper)

/-- Does `pat` occur at the head of the character list? -/
def startsWithChars : List Char → List Char → Bool
  | _, [] => true
  | [], _ :: _ => false
  | c :: cs, p :: ps => c == p && startsWithChars cs ps

/-- Does `pat` occur anywhere in the character list? -/
def hasSubChars (pat : List Char) : List Char → Bool
  | [] => pat.isEmpty
  | c :: tl => startsWithChars (c :: tl) pat || hasSubChars pat tl

/-- Decimal rendering of a JS number (used by `String(x)`). JS floats are
dyadic rationals, so the denominator always divides a power of ten on the
faithful range; the final fallback is unreachable there. -/
def numToString (q : ℚ) : String :=
  if q.den = 1 then toString q.num
  else
    match (List.range 65).find? (fun k => 10 ^ k % q.den = 0) with
    | some k =>
        let m : Nat := 10 ^ k / q.den
        let digits := toString (q.num * (m : Int)).natAbs
        let padded := String.mk (List.replicate (k + 1 - digits.length) '0') ++ digits
        let cs := padded.toList
        let sign := if q.num < 0 then "-" else ""
        sign ++ String.mk (cs.take (cs.length - k)) ++ "." ++ String.mk (cs.drop (cs.length - k))
    | none => toString q.num ++ "/" ++ toString q.den

mutual
/-- JS `String(v)`. Arrays stringify as their elements joined by commas,
with `null`/`undefined` elements contributing the empty string. -/
def toStr : JSVal → String
  | .null => "null"
  | .undef => "undefined"
  | .bool b => if b then "true" else "false"
  | .num q => numToString q
  | .nan => "NaN"
  | .str s => s
  | .obj _ => "[object Object]"
  | .arr xs => arrJoin xs

/-- `Array.prototype.join(",")`, the stringification of an array's elements
(nullish elements become `""`). -/
def arrJoin : List JSVal → String
  | [] => ""
  | [.null] => ""
  | [.undef] => ""
  | [x] => toStr x
  | .null :: tl => "," ++ arrJoin tl
  | .undef :: tl => "," ++ arrJoin tl
  | x :: tl => toStr x ++ "," ++ arrJoin tl
end

/-- Split a character list on `'.'` (for the decimal fragment of
`Number(string)`). -/
def splitOnDot : List Char → List (List Char)
  | [] => [[]]
  | '.' :: tl => [] :: splitOnDot tl
  | c :: tl =>
      match splitOnDot tl with
      | [] => [[c]]
      | p :: ps => (c :: p) :: ps

/-- Decimal string → number, the fragment of JS `Number(string)` exercised by
receipt data: optional sign, decimal digits with optional fraction; blank
strings give `0`; anything else (hex, exponent, `Infinity`, prose) is `NaN`
(`none`). -/
def parseDecString (s : String) : Option ℚ :=
  let t := ((s.toList.dropWhile Char.isWhitespace).reverse.dropWhile Char.isWhitespace).reverse
  if t.isEmpty then some 0
  else
    let (neg, body) : Bool × List Char :=
      match t with
      | '-' :: rest => (true, rest)
      | '+' :: rest => (false, rest)
      | _ => (false, t)
    let digitsVal : List Char → ℕ := fun cs =>
      cs.foldl (fun n c => 10 * n + (c.toNat - 48)) 0
    let signed : ℕ → ℤ := fun n => if neg then -(n : ℤ) else (n : ℤ)
    match splitOnDot body with
    | [ip] =>
        if ip ≠ [] ∧ ip.all Char.isDigit then
          some (Rat.divInt (signed (digitsVal ip)) 1)
        else none
    | [ip, fp] =>
        if (ip ≠ [] ∨ fp ≠ []) ∧ ip.all Char.isDigit ∧ fp.all Char.isDigit then
          some (Rat.divInt (signed (digitsVal ip * 10 ^ fp.length + digitsVal fp))
            ((10 ^ fp.length : ℕ) : ℤ))
        else none
    | _ => none

/-- JS `Number(v)`; `none` is `NaN`. `Number(null) = 0`, `Number(undefined)`
is `NaN`, booleans are `1`/`0`, arrays coerce through their string form,
plain objects are `NaN`. -/
def toNum : JSVal → Option ℚ
  | .null => some 0
  | .undef => none
  | .bool b => some (if b then 1 else 0)
  | .num q => some q
  | .nan => none
  | .str s => parseDecString s
  | .arr xs => parseDecString (toStr (.arr xs))
  | .obj _ => none

/-- JS `Number(v) || d`: the default replaces both `NaN` (falsy) and `0`. -/
def jsNumOr (v : JSVal) (d : ℚ) : ℚ :=
  match toNum v with
  | none => d
  | some q => if q = 0 then d else q

-- The normalized receipt schema (source lines 9-34).

structure ReceiptItem : Type where
  name : String
  quantity : ℚ
  unitPrice : ℚ
  totalPrice : ℚ
deriving Repr, DecidableEq

structure MerchantInfo : Type where
  name : String
  address : String
  contact : String
deriving Repr, DecidableEq

structure TransactionInfo : Type where
  date : String
  receipt_number : String
  payment_method : String
deriving Repr, DecidableEq

structure TotalsInfo : Type where
  subtotal : ℚ
  tax : ℚ
  total : ℚ
  currency : String
deriving Repr, DecidableEq

structure ReceiptData : Type where
  merchant : MerchantInfo
  transaction : TransactionInfo
  items : List ReceiptItem
  totals : TotalsInfo
deriving Repr, DecidableEq

/-- One element of `d.items.map(...)` (source lines 63-70): reading
`item.name` on a nullish element throws, otherwise each field is coerced
with its default. -/
def normalizeItem (item : JSVal) : Except String ReceiptItem :=
  match jsGetChecked item "name" with
  | .error e => .error e
  | .ok n =>
    match jsGetChecked item "quantity" with
    | .error e => .error e
    | .ok q =>
      match jsGetChecked item "unitPrice" with
      | .error e => .error e
      | .ok u =>
        match jsGetChecked item "totalPrice" with
        | .error e => .error e
        | .ok t =>
          .ok { name := jsTrim (toStr (jsOr n (JSVal.str "Item")))
                quantity := jsNumOr q 1
                unitPrice := jsNumOr u 0
                totalPrice := jsNumOr t 0 }

/-- `Array.prototype.map` with a callback that can throw: elements are
processed left to right, the first exception aborts the map. -/
def mapEx {α β : Type} (f : α → Except String β) : List α → Except String (List β)
  | [] => .ok []
  | x :: xs =>
    match f x with
    | .error e => .error e
    | .ok y =>
      match mapEx f xs with
      | .error e => .error e
      | .ok ys => .ok (y :: ys)

/-- The `items` field of the normalized record (source lines 62-71):
`Array.isArray(d.items) ? d.items.map(...) : []`. -/
def normalizeItems (data : JSVal) : Except String (List ReceiptItem) :=
  match jsGet data "items" with
  | .arr xs => mapEx normalizeItem xs
  | _ => .ok []

/-- The object literal returned by `validateReceiptData` (source lines
47-78), minus the `items` computation, which is the only field whose
evaluation can throw. `today` stands for the clock read
`new Date().toISOString().split("T")[0]` and `nowMs` for `Date.now()`. -/
def buildReceipt (today : String) (nowMs : Nat) (data : JSVal)
    (items : List ReceiptItem) : ReceiptData :=
  let merchant := jsOr (jsGet data "merchant") (.obj [])
  let transaction := jsOr (jsGet data "transaction") (.obj [])
  let totals := jsOr (jsGet data "totals") (.obj [])
  { merchant :=
      { name := jsTrim (toStr (jsOr (jsGet merchant "name") (JSVal.str "Unknown Merchant")))
        address := jsTrim (toStr (jsOr (jsGet merchant "address") (JSVal.str "")))
        contact := jsTrim (toStr (jsOr (jsGet merchant "contact") (JSVal.str ""))) }
    transaction :=
      { date := jsTrim (toStr (jsOr (jsGet transaction "date") (JSVal.str today)))
        receipt_number :=
          jsTrim (toStr (jsOr (jsGet transaction "receipt_number")
            (JSVal.str ("REC" ++ toString nowMs))))
        payment_method := jsTrim (toStr (jsOr (jsGet transaction "payment_method") (JSVal.str "Unknown"))) }
    items := items
    totals :=
      { subtotal := jsNumOr (jsGet totals "subtotal") 0
        tax := jsNumOr (jsGet totals "tax") 0
        total := jsNumOr (jsGet totals "total") 0
        currency := jsToUpper (toStr (jsOr (jsGet totals "currency") (JSVal.str "USD"))) } }

/-- `validateReceiptData` (source lines 37-79). The shape guard is
`if (!data || typeof data !== "object") throw ...`; afterwards the record is
assembled, with the `items` map the only possible exception source. -/
def validateReceiptData (today : String) (nowMs : Nat) (data : JSVal) :
    Except String ReceiptData :=
  if truthy data = false ∨ typeof data ≠ "object" then
    .error "Invalid receipt data structure"
  else
    (normalizeItems data).map (buildReceipt today nowMs data)

-- ------------------------------------------------------------------
-- retryWithBackoff (source lines 83-122)
-- ------------------------------------------------------------------

/-- `String.prototype.includes`. -/
def strContains (s pat : String) : Bool := hasSubChars pat.toList s.toList

/-- Rate-limit classification of an error message (source lines 97-100). -/
def isRateLimit (msg : String) : Bool :=
  strContains msg "429" || strContains msg "rate" || strContains msg "quota"

/-- Delay before the next attempt (source lines 104-106):
`baseDelayMs * 2^attempt`, raised to a 10-second floor for rate limits. -/
def computeDelay (baseDelayMs attempt : Nat) (rateLimited : Bool) : Nat :=
  let d := baseDelayMs * 2 ^ attempt
  if rateLimited then max d 10000 else d

/-- The retry loop of `retryWithBackoff`, with the operation modelled as the
outcome of each attempt (`fn attempt`). `fuel` counts the remaining loop
iterations (`maxRetries - attempt`, maintained by `retryWithBackoff` below).
Returns the final outcome, the number of invocations of the operation, and
the ordered list of delays slept between attempts (a delay is scheduled only
when `attempt < maxRetries - 1`, source line 102). -/
def retryAux {T : Type} (fn : Nat → Except String T) (maxRetries baseDelayMs : Nat) :
    Nat → Nat → Option String → Except String T × Nat × List Nat
  | 0, _, lastErr =>
      (match lastErr with
       | some e => Except.error e
       | none => Except.error "Max retries exceeded", 0, [])
  | fuel + 1, attempt, _ =>
      match fn attempt with
      | .ok v => (.ok v, 1, [])
      | .error e =>
          let rest := retryAux fn maxRetries baseDelayMs fuel (attempt + 1) (some e)
          if attempt + 1 < maxRetries then
            (rest.1, rest.2.1 + 1, computeDelay baseDelayMs attempt (isRateLimit e) :: rest.2.2)
          else
            (rest.1, rest.2.1 + 1, rest.2.2)

/-- `retryWithBackoff(fn, maxRetries = 5, baseDelayMs = 2000)`: result,
invocation count, and the list of backoff delays actually slept. -/
def retryWithBackoff {T : Type} (fn : Nat → Except String T)
    (maxRetries baseDelayMs : Nat) : Except String T × Nat × List Nat :=
  retryAux fn maxRetries baseDelayMs maxRetries 0 none

/-- The delays `retryWithBackoff` schedules when `k` consecutive attempts
starting at `attempt` fail with messages `errs`. -/
def expectedDelays (base : Nat) (errs : Nat → String) : Nat → Nat → List Nat
  | _, 0 => []
  | attempt, k + 1 =>
      computeDelay base attempt (isRateLimit (errs attempt)) ::
        expectedDelays base errs (attempt + 1) k

-- ------------------------------------------------------------------
-- The "save-to-database" step (source lines 369-418)
-- ------------------------------------------------------------------

/-- Outcomes of the two remote calls made by the save step: the Convex
mutation (returning `{ userId }`) and the Schematic `track` call. -/
structure SaveDeps : Type where
  mutationResult : Except String String
  trackResult : String → Except String Unit

/-- What the save step did: its result (the whole body is wrapped in a
`try/catch` that logs and re-throws), and how many times each remote call
ran. -/
structure SaveTrace : Type where
  result : Except String String
  mutationCalls : Nat
  trackCalls : Nat
deriving Repr, DecidableEq

/-- The body of `step.run("save-to-database", ...)`: the mutation first; on
its success the `track` call; any exception propagates out of the step
(the `catch` at source lines 414-417 re-throws). On success the step result
carries the `userId` (standing for the `{success, userId, ...}` object). -/
def saveToDatabaseStep (deps : SaveDeps) : SaveTrace :=
  match deps.mutationResult with
  | .error e => { result := .error e, mutationCalls := 1, trackCalls := 0 }
  | .ok userId =>
      match deps.trackResult userId with
      | .error e => { result := .error e, mutationCalls := 1, trackCalls := 1 }
      | .ok _ => { result := .ok userId, mutationCalls := 1, trackCalls := 1 }

-- ------------------------------------------------------------------
-- The "extract-pdf-data" step (source lines 132-366), at the granularity
-- of outbound network calls
-- ------------------------------------------------------------------

/-- The outbound network calls the extraction step can make, in source
order: the document fetch (line 141), the Gemini connectivity probe
(line 191), and the Gemini model call (line 284). -/
inductive NetCall : Type where
  | fetchDoc
  | probeAI
  | callAI
deriving Repr, DecidableEq

/-- Environment of one run of the extraction step: whether
`process.env.GEMINI_API_KEY` is set, the overall outcome of the
fetch-with-retry (the received bytes), and the outcome of the model call.
The connectivity probe's outcome never affects control flow (its `try`
block swallows every failure, lines 215-226), so it is not a parameter. -/
structure ExtractEnv : Type where
  apiKeyConfigured : Bool
  fetchOutcome : Except String (List Nat)
  aiOutcome : Except String String

/-- The extraction step body, recording the ordered trace of network calls
and the step outcome. The PDF is fetched (and checked non-empty) before the
API-key check at source line 180; the probe and the model call happen only
after the key check passes. -/
def extractStepTrace (env : ExtractEnv) : List NetCall × Except String String :=
  match env.fetchOutcome with
  | .error e => ([NetCall.fetchDoc], .error e)
  | .ok bytes =>
      if bytes.length = 0 then ([NetCall.fetchDoc], .error "PDF file is empty")
      else if env.apiKeyConfigured = false then
        ([NetCall.fetchDoc],
          .error "GEMINI_API_KEY environment variable is not configured. Set it in .env.local")
      else
        match env.aiOutcome with
        | .error e => ([NetCall.fetchDoc, NetCall.probeAI, NetCall.callAI], .error e)
        | .ok text => ([NetCall.fetchDoc, NetCall.probeAI, NetCall.callAI], .ok text)

/-- Is a value `null` or `undefined`? -/
def isNullish : JSVal → Bool
  | .null => true
  | .undef => true
  | _ => false

/-- All elements of an array-valued `items` field are non-nullish (trivially
true when `items` is not an array). -/
def itemsOk (data : JSVal) : Bool :=
  match jsGet data "items" with
  | .arr xs => xs.all fun x => !isNullish x
  | _ => true

-- ------------------------------------------------------------------
-- Helper lemmas
-- ------------------------------------------------------------------

theorem mapEx_error_mem {α β : Type} {f : α → Except String β} :
    ∀ {xs : List α} {e : String}, mapEx f xs = Except.error e →
      ∃ x, x ∈ xs ∧ f x = Except.error e := by
  intro xs
  induction xs with
  | nil => intro e h; simp [mapEx] at h
  | cons x tl ih =>
      intro e h
      cases hfx : f x with
      | error e2 =>
          simp only [mapEx, hfx] at h
          cases h
          exact ⟨x, by simp, hfx⟩
      | ok y =>
          cases hm : mapEx f tl with
          | error e2 =>
              simp only [mapEx, hfx, hm] at h
              cases h
              obtain ⟨z, hz, hfz⟩ := ih hm
              exact ⟨z, by simp [hz], hfz⟩
          | ok ys => simp only [mapEx, hfx, hm] at h; cases h

theorem mapEx_ok_mem {α β : Type} {f : α → Except String β} :
    ∀ {xs : List α} {ys : List β}, mapEx f xs = Except.ok ys →
      ∀ y ∈ ys, ∃ x, x ∈ xs ∧ f x = Except.ok y := by
  intro xs
  induction xs with
  | nil =>
      intro ys h y hy
      simp only [mapEx] at h
      cases h
      simp at hy
  | cons x tl ih =>
      intro ys h y hy
      cases hfx : f x with
      | error e => simp only [mapEx, hfx] at h; cases h
      | ok z =>
          cases hm : mapEx f tl with
          | error e => simp only [mapEx, hfx, hm] at h; cases h
          | ok zs =>
              simp only [mapEx, hfx, hm] at h
              cases h
              rcases List.mem_cons.mp hy with h1 | h1
              · exact ⟨x, by simp, by rw [hfx, h1]⟩
              · obtain ⟨x2, hx2, hfx2⟩ := ih hm y h1
                exact ⟨x2, by simp [hx2], hfx2⟩

theorem mapEx_ok_of_forall {α β : Type} {f : α → Except String β} :
    ∀ {xs : List α}, (∀ x ∈ xs, ∃ y, f x = Except.ok y) →
      ∃ ys, mapEx f xs = Except.ok ys := by
  intro xs
  induction xs with
  | nil => intro _; exact ⟨[], rfl⟩
  | cons x tl ih =>
      intro h
      obtain ⟨y, hy⟩ := h x (by simp)
      obtain ⟨ys, hys⟩ := ih fun z hz => h z (by simp [hz])
      exact ⟨y :: ys, by simp only [mapEx, hy, hys]⟩

theorem normalizeItem_ok_of_not_nullish {item : JSVal} (h : isNullish item = false) :
    normalizeItem item =
      Except.ok { name := jsTrim (toStr (jsOr (jsGet item "name") (JSVal.str "Item")))
                  quantity := jsNumOr (jsGet item "quantity") 1
                  unitPrice := jsNumOr (jsGet item "unitPrice") 0
                  totalPrice := jsNumOr (jsGet item "totalPrice") 0 } := by
  cases item <;> simp [isNullish] at h <;> rfl

theorem normalizeItem_error_msg {item : JSVal} {e : String}
    (h : normalizeItem item = Except.error e) :
    e = "Cannot read properties of null" ∨ e = "Cannot read properties of undefined" := by
  cases hn : isNullish item with
  | true =>
      cases item <;> simp [isNullish] at hn <;>
        simp [normalizeItem, jsGetChecked] at h <;> simp [h]
  | false => rw [normalizeItem_ok_of_not_nullish hn] at h; cases h

theorem jsNumOr_ne_zero {v : JSVal} {d : ℚ} (hd : d ≠ 0) : jsNumOr v d ≠ 0 := by
  unfold jsNumOr
  cases hv : toNum v <;> simp only [hv]
  · exact hd
  · split <;> assumption

theorem normalizeItem_quantity_ne_zero {item : JSVal} {y : ReceiptItem}
    (h : normalizeItem item = Except.ok y) : y.quantity ≠ 0 := by
  cases hn : isNullish item with
  | true => cases item <;> simp [isNullish] at hn <;> simp [normalizeItem, jsGetChecked] at h
  | false =>
      rw [normalizeItem_ok_of_not_nullish hn] at h
      cases h
      exact jsNumOr_ne_zero one_ne_zero

theorem normalizeItems_error_msg {data : JSVal} {e : String}
    (h : normalizeItems data = Except.error e) :
    e = "Cannot read properties of null" ∨ e = "Cannot read properties of undefined" := by
  unfold normalizeItems at h
  cases hg : jsGet data "items" <;> rw [hg] at h
  case arr xs =>
    obtain ⟨x, _, hfx⟩ := mapEx_error_mem h
    exact normalizeItem_error_msg hfx
  all_goals cases h

theorem itemsOk_arr {data : JSVal} {xs : List JSVal}
    (hg : jsGet data "items" = JSVal.arr xs) (h : itemsOk data = true) :
    ∀ x ∈ xs, isNullish x = false := by
  unfold itemsOk at h
  rw [hg] at h
  simp only [List.all_eq_true, Bool.not_eq_eq_eq_not, Bool.not_true] at h
  intro x hx
  simpa using h x hx

theorem normalizeItems_ok_of_itemsOk {data : JSVal} (h : itemsOk data = true) :
    ∃ ys, normalizeItems data = Except.ok ys := by
  unfold normalizeItems
  cases hg : jsGet data "items"
  case arr xs =>
    apply mapEx_ok_of_forall
    intro x hx
    exact ⟨_, normalizeItem_ok_of_not_nullish (itemsOk_arr hg h x hx)⟩
  all_goals exact ⟨[], rfl⟩

theorem normalizeItems_quantity {data : JSVal} {ys : List ReceiptItem}
    (h : normalizeItems data = Except.ok ys) : ∀ y ∈ ys, y.quantity ≠ 0 := by
  unfold normalizeItems at h
  cases hg : jsGet data "items" <;> rw [hg] at h
  case arr xs =>
    intro y hy
    obtain ⟨x, _, hfx⟩ := mapEx_ok_mem h y hy
    exact normalizeItem_quantity_ne_zero hfx
  all_goals (intro y hy; cases h; simp at hy)

theorem validate_ok_items {today : String} {nowMs : Nat} {data : JSVal} {r : ReceiptData}
    (h : validateReceiptData today nowMs data = Except.ok r) :
    normalizeItems data = Except.ok r.items := by
  rw [validateReceiptData] at h
  split at h
  · cases h
  · cases he : normalizeItems data with
    | error e => rw [he] at h; simp only [Except.map] at h; cases h
    | ok items =>
        rw [he] at h
        simp only [Except.map] at h
        cases h
        rfl

-- ------------------------------------------------------------------
-- Claims about the Schema Normalizer
-- ------------------------------------------------------------------

/-- C1 (amended): the shape error `"Invalid receipt data structure"` is
raised exactly when the root value is falsy or not of JS `object` type —
so numbers, strings, booleans, `null` and `undefined` raise it, while every
object root, a plain array included (`typeof [] = "object"`), does not. -/
theorem c1_shape_error_iff (today : String) (nowMs : Nat) (data : JSVal) :
    validateReceiptData today nowMs data = Except.error "Invalid receipt data structure" ↔
      (truthy data = false ∨ typeof data ≠ "object") := by
  constructor
  · intro h
    by_contra hc
    rw [validateReceiptData, if_neg hc] at h
    cases he : normalizeItems data with
    | error e =>
        rw [he] at h
        simp only [Except.map] at h
        cases h
        rcases normalizeItems_error_msg he with h1 | h1 <;> exact absurd h1 (by decide)
    | ok items =>
        rw [he] at h
        simp only [Except.map] at h
        cases h
  · intro h
    rw [validateReceiptData, if_pos h]

/-- C1 counterexample: contrary to the claim, a plain array root does not
raise — `typeof [] = "object"` and arrays are truthy, so `normalize([])`
returns the all-defaults record. -/
theorem c1_array_root_counterexample :
    validateReceiptData "2026-10-12" 0 (JSVal.arr []) =
      Except.ok { merchant := { name := "Unknown Merchant", address := "", contact := "" }
                  transaction := { date := "2026-10-12", receipt_number := "REC0",
                                   payment_method := "Unknown" }
                  items := []
                  totals := { subtotal := 0, tax := 0, total := 0, currency := "USD" } } ∧
      typeof (JSVal.arr []) = "object" :=
  ⟨by decide, rfl⟩

/-- C2 (amended): for every truthy object-typed root whose `items` field,
when it is an array, contains no `null`/`undefined` element, normalization
never raises and returns a fully populated `ReceiptData` record (whose
numeric fields are plain rationals — `Number(x) || d` can never yield
`NaN` — and whose text fields are strings). -/
theorem c2_normalize_total_on_safe_items (today : String) (nowMs : Nat) (data : JSVal)
    (htr : truthy data = true) (hty : typeof data = "object")
    (hit : itemsOk data = true) :
    ∃ r, validateReceiptData today nowMs data = Except.ok r := by
  have hguard : ¬(truthy data = false ∨ typeof data ≠ "object") := by simp [htr, hty]
  rw [validateReceiptData, if_neg hguard]
  obtain ⟨ys, hys⟩ := normalizeItems_ok_of_itemsOk hit
  rw [hys]
  exact ⟨_, rfl⟩

/-- C2 counterexample: the object root `{items: [null]}` makes `normalize`
throw (reading `.name` of a `null` array element), so normalization is not
total on object roots as claimed. -/
theorem c2_null_item_counterexample :
    validateReceiptData "2026-10-12" 0 (JSVal.obj [("items", JSVal.arr [JSVal.null])]) =
      Except.error "Cannot read properties of null" ∧
      truthy (JSVal.obj [("items", JSVal.arr [JSVal.null])]) = true ∧
      typeof (JSVal.obj [("items", JSVal.arr [JSVal.null])]) = "object" :=
  ⟨by decide, rfl, rfl⟩

/-- C2 witness: a concrete object root with a safe items array normalizes
successfully. -/
theorem c2_witness :
    ∃ r, validateReceiptData "2026-01-01" 5
        (JSVal.obj [("items", JSVal.arr [JSVal.obj []])]) = Except.ok r :=
  c2_normalize_total_on_safe_items "2026-01-01" 5
    (JSVal.obj [("items", JSVal.arr [JSVal.obj []])]) (by decide) (by decide) (by decide)

/-- C3: `normalize({})` yields the named defaults (`"Unknown Merchant"`,
`"USD"`, `[]`, `"Unknown"`), and a non-array `items` field (here the string
`"not-a-list"`) normalizes to the empty item list. -/
theorem c3_defaults (today : String) (nowMs : Nat) :
    (∃ r, validateReceiptData today nowMs (JSVal.obj []) = Except.ok r ∧
        r.merchant.name = "Unknown Merchant" ∧ r.totals.currency = "USD" ∧
        r.items = [] ∧ r.transaction.payment_method = "Unknown") ∧
    (∃ r, validateReceiptData today nowMs (JSVal.obj [("items", JSVal.str "not-a-list")]) =
        Except.ok r ∧ r.items = []) := by
  exact ⟨⟨_, rfl, rfl, rfl, rfl, rfl⟩, ⟨_, rfl, rfl⟩⟩

/-- C4 counterexample: the same input normalized at two different clock
readings gives different results (the generated `receipt_number` default is
`"REC" + Date.now()`), so `normalize` is not a deterministic function of the
input value alone. -/
theorem c4_clock_counterexample :
    validateReceiptData "2026-10-12" 1 (JSVal.obj []) ≠
      validateReceiptData "2026-10-12" 2 (JSVal.obj []) := by decide

/-- C4 (amended): `normalize` is a pure function of the input together with
the two clock readings it takes (today's date and `Date.now()`); at a fixed
clock it is deterministic, and two runs at different clocks agree on every
field except `transaction.date` and `transaction.receipt_number`. -/
theorem c4_clock_only_affects_generated_fields (t1 t2 : String) (n1 n2 : Nat)
    (data : JSVal) (r1 r2 : ReceiptData)
    (h1 : validateReceiptData t1 n1 data = Except.ok r1)
    (h2 : validateReceiptData t2 n2 data = Except.ok r2) :
    r1.merchant = r2.merchant ∧ r1.items = r2.items ∧ r1.totals = r2.totals ∧
      r1.transaction.payment_method = r2.transaction.payment_method := by
  by_cases hc : truthy data = false ∨ typeof data ≠ "object"
  · rw [validateReceiptData, if_pos hc] at h1
    cases h1
  · rw [validateReceiptData, if_neg hc] at h1
    rw [validateReceiptData, if_neg hc] at h2
    cases he : normalizeItems data with
    | error e =>
        rw [he] at h1
        simp only [Except.map] at h1
        cases h1
    | ok items =>
        rw [he] at h1
        rw [he] at h2
        simp only [Except.map] at h1 h2
        cases h1
        cases h2
        exact ⟨rfl, rfl, rfl, rfl⟩

/-- C4 witness: two concrete runs of the normalizer on `{}` at different
clock readings agree on merchant, items, totals and payment method. -/
theorem c4_witness :
    ({ merchant := { name := "Unknown Merchant", address := "", contact := "" }
       transaction := { date := "2026-10-12", receipt_number := "REC1",
                        payment_method := "Unknown" }
       items := []
       totals := { subtotal := 0, tax := 0, total := 0, currency := "USD" } } : ReceiptData).merchant =
    ({ merchant := { name := "Unknown Merchant", address := "", contact := "" }
       transaction := { date := "2030-01-01", receipt_number := "REC99",
                        payment_method := "Unknown" }
       items := []
       totals := { subtotal := 0, tax := 0, total := 0, currency := "USD" } } : ReceiptData).merchant ∧
    ({ merchant := { name := "Unknown Merchant", address := "", contact := "" }
       transaction := { date := "2026-10-12", receipt_number := "REC1",
                        payment_method := "Unknown" }
       items := []
       totals := { subtotal := 0, tax := 0, total := 0, currency := "USD" } } : ReceiptData).items =
    ({ merchant := { name := "Unknown Merchant", address := "", contact := "" }
       transaction := { date := "2030-01-01", receipt_number := "REC99",
                        payment_method := "Unknown" }
       items := []
       totals := { subtotal := 0, tax := 0, total := 0, currency := "USD" } } : ReceiptData).items ∧
    ({ merchant := { name := "Unknown Merchant", address := "", contact := "" }
       transaction := { date := "2026-10-12", receipt_number := "REC1",
                        payment_method := "Unknown" }
       items := []
       totals := { subtotal := 0, tax := 0, total := 0, currency := "USD" } } : ReceiptData).totals =
    ({ merchant := { name := "Unknown Merchant", address := "", contact := "" }
       transaction := { date := "2030-01-01", receipt_number := "REC99",
                        payment_method := "Unknown" }
       items := []
       totals := { subtotal := 0, tax := 0, total := 0, currency := "USD" } } : ReceiptData).totals ∧
    ({ merchant := { name := "Unknown Merchant", address := "", contact := "" }
       transaction := { date := "2026-10-12", receipt_number := "REC1",
                        payment_method := "Unknown" }
       items := []
       totals := { subtotal := 0, tax := 0, total := 0, currency := "USD" } } : ReceiptData).transaction.payment_method =
    ({ merchant := { name := "Unknown Merchant", address := "", contact := "" }
       transaction := { date := "2030-01-01", receipt_number := "REC99",
                        payment_method := "Unknown" }
       items := []
       totals := { subtotal := 0, tax := 0, total := 0, currency := "USD" } } : ReceiptData).transaction.payment_method :=
  c4_clock_only_affects_generated_fields "2026-10-12" "2030-01-01" 1 99 (JSVal.obj [])
    { merchant := { name := "Unknown Merchant", address := "", contact := "" }
      transaction := { date := "2026-10-12", receipt_number := "REC1",
                       payment_method := "Unknown" }
      items := []
      totals := { subtotal := 0, tax := 0, total := 0, currency := "USD" } }
    { merchant := { name := "Unknown Merchant", address := "", contact := "" }
      transaction := { date := "2030-01-01", receipt_number := "REC99",
                       payment_method := "Unknown" }
      items := []
      totals := { subtotal := 0, tax := 0, total := 0, currency := "USD" } }
    (by decide) (by decide)

/-- C8 counterexample: items carrying negative or non-integer numbers pass
through normalization unchanged — `quantity` can be `-5` or `5/2` and
`unitPrice` can be `-3`, contradicting the claimed non-negative-integer /
non-negative invariants. -/
theorem c8_negative_quantity_counterexample :
    validateReceiptData "2026-10-12" 0
        (JSVal.obj [("items", JSVal.arr
          [JSVal.obj [("quantity", JSVal.num (-5)), ("unitPrice", JSVal.num (-3))],
           JSVal.obj [("quantity", JSVal.num (mkRat 5 2))]])]) =
      Except.ok { merchant := { name := "Unknown Merchant", address := "", contact := "" }
                  transaction := { date := "2026-10-12", receipt_number := "REC0",
                                   payment_method := "Unknown" }
                  items := [{ name := "Item", quantity := -5, unitPrice := -3, totalPrice := 0 },
                            { name := "Item", quantity := mkRat 5 2, unitPrice := 0, totalPrice := 0 }]
                  totals := { subtotal := 0, tax := 0, total := 0, currency := "USD" } } ∧
      ((-5 : ℚ) < 0 ∧ (-3 : ℚ) < 0 ∧ (mkRat 5 2).den ≠ 1) :=
  ⟨by decide, by decide, by decide, by decide⟩

/-- C8 (amended): each item's numeric field is the JS numeric coercion of
the input field with the default (1 for `quantity`, 0 for the prices)
substituted exactly when the coercion is `NaN` or `0`; in particular a
normalized `quantity` is never `0`, but it may be negative or fractional. -/
theorem c8_item_quantity_never_zero (today : String) (nowMs : Nat) (data : JSVal)
    (r : ReceiptData) (h : validateReceiptData today nowMs data = Except.ok r) :
    ∀ it ∈ r.items, it.quantity ≠ 0 :=
  normalizeItems_quantity (validate_ok_items h)

/-- C8 witness: a concrete normalized item has nonzero quantity. -/
theorem c8_witness :
    ({ name := "Item", quantity := 3, unitPrice := 0, totalPrice := 0 } : ReceiptItem).quantity ≠ 0 := by
  have h := c8_item_quantity_never_zero "2026-01-01" 5
    (JSVal.obj [("items", JSVal.arr [JSVal.obj [("quantity", JSVal.num 3)]])])
    { merchant := { name := "Unknown Merchant", address := "", contact := "" }
      transaction := { date := "2026-01-01", receipt_number := "REC5",
                       payment_method := "Unknown" }
      items := [{ name := "Item", quantity := 3, unitPrice := 0, totalPrice := 0 }]
      totals := { subtotal := 0, tax := 0, total := 0, currency := "USD" } }
    (by decide)
  exact h { name := "Item", quantity := 3, unitPrice := 0, totalPrice := 0 } (by decide)

/-- C10: when an item's `quantity` field is present and coerces to the
number `0` (for instance the number `0` or the string `"0"`), the
normalized quantity is the default `1`, not `0` — the `|| 1` fallback fires
on any falsy coerced value, not only on absent fields. -/
theorem c10_zero_quantity_defaults_to_one (item : JSVal) (y : ReceiptItem)
    (h : normalizeItem item = Except.ok y)
    (h0 : toNum (jsGet item "quantity") = some 0) : y.quantity = 1 := by
  cases hn : isNullish item with
  | true =>
      cases item <;> simp [isNullish] at hn <;> simp [normalizeItem, jsGetChecked] at h
  | false =>
      rw [normalizeItem_ok_of_not_nullish hn] at h
      cases h
      show jsNumOr (jsGet item "quantity") 1 = 1
      simp [jsNumOr, h0]

/-- C10 witness: the string `"0"` as quantity normalizes to `1`. -/
theorem c10_witness :
    ({ name := "Item", quantity := 1, unitPrice := 0, totalPrice := 0 } : ReceiptItem).quantity = 1 :=
  c10_zero_quantity_defaults_to_one (JSVal.obj [("quantity", JSVal.str "0")])
    { name := "Item", quantity := 1, unitPrice := 0, totalPrice := 0 } (by decide) (by decide)

-- ------------------------------------------------------------------
-- Claims about the Backoff Executor
-- ------------------------------------------------------------------

theorem expectedDelays_eq_map (base : Nat) (errs : Nat → String) :
    ∀ (k attempt : Nat), expectedDelays base errs attempt k =
      (List.range k).map fun i => computeDelay base (attempt + i) (isRateLimit (errs (attempt + i))) := by
  intro k
  induction k with
  | zero => intro attempt; simp [expectedDelays]
  | succ k ih =>
      intro attempt
      rw [expectedDelays, ih (attempt + 1), List.range_succ_eq_map, List.map_cons, List.map_map]
      simp only [Nat.add_zero]
      congr 1
      apply List.map_congr_left
      intro a _
      have hq : attempt + (a + 1) = attempt + 1 + a := by omega
      simp [Function.comp, hq]

theorem retryAux_succeeds {T : Type} (fn : Nat → Except String T) (maxR base : Nat)
    (errs : Nat → String) (v : T) :
    ∀ (k fuel attempt : Nat) (le : Option String), k < fuel → attempt + fuel = maxR →
      (∀ i, i < k → fn (attempt + i) = Except.error (errs (attempt + i))) →
      fn (attempt + k) = Except.ok v →
      retryAux fn maxR base fuel attempt le =
        (Except.ok v, k + 1, expectedDelays base errs attempt k) := by
  intro k
  induction k with
  | zero =>
      intro fuel attempt le hk hinv hfail hsucc
      cases fuel with
      | zero => omega
      | succ f =>
          simp only [Nat.add_zero] at hsucc
          simp [retryAux, hsucc, expectedDelays]
  | succ k ih =>
      intro fuel attempt le hk hinv hfail hsucc
      cases fuel with
      | zero => omega
      | succ f =>
          have h0 : fn attempt = Except.error (errs attempt) := by
            simpa using hfail 0 (by omega)
          have hlt : attempt + 1 < maxR := by omega
          have hrec := ih f (attempt + 1) (some (errs attempt)) (by omega) (by omega)
            (fun i hi => by
              have hsh := hfail (i + 1) (by omega)
              have hq : attempt + (i + 1) = attempt + 1 + i := by omega
              rwa [hq] at hsh)
            (by
              have hq : attempt + (k + 1) = attempt + 1 + k := by omega
              rwa [hq] at hsucc)
          simp only [retryAux, h0, if_pos hlt, hrec, expectedDelays]

theorem retryAux_zero_some {T : Type} (fn : Nat → Except String T)
    (maxR base attempt : Nat) (e : String) :
    retryAux fn maxR base 0 attempt (some e) = (Except.error e, 0, []) := rfl

theorem retryAux_step_error {T : Type} (fn : Nat → Except String T)
    (maxR base fuel attempt : Nat) (le : Option String) (e : String)
    (h : fn attempt = Except.error e) (hlt : attempt + 1 < maxR) :
    retryAux fn maxR base (fuel + 1) attempt le =
      ((retryAux fn maxR base fuel (attempt + 1) (some e)).1,
        (retryAux fn maxR base fuel (attempt + 1) (some e)).2.1 + 1,
        computeDelay base attempt (isRateLimit e) ::
          (retryAux fn maxR base fuel (attempt + 1) (some e)).2.2) := by
  simp only [retryAux, h, if_pos hlt]

theorem retryAux_step_error_last {T : Type} (fn : Nat → Except String T)
    (maxR base fuel attempt : Nat) (le : Option String) (e : String)
    (h : fn attempt = Except.error e) (hnlt : ¬ (attempt + 1 < maxR)) :
    retryAux fn maxR base (fuel + 1) attempt le =
      ((retryAux fn maxR base fuel (attempt + 1) (some e)).1,
        (retryAux fn maxR base fuel (attempt + 1) (some e)).2.1 + 1,
        (retryAux fn maxR base fuel (attempt + 1) (some e)).2.2) := by
  simp only [retryAux, h, if_neg hnlt]

theorem retryAux_exhaust {T : Type} (fn : Nat → Except String T) (maxR base : Nat)
    (errs : Nat → String) :
    ∀ (fuel attempt : Nat) (le : Option String), 0 < fuel → attempt + fuel = maxR →
      (∀ i, i < fuel → fn (attempt + i) = Except.error (errs (attempt + i))) →
      (retryAux fn maxR base fuel attempt le).1 = Except.error (errs (maxR - 1)) ∧
      (retryAux fn maxR base fuel attempt le).2.1 = fuel := by
  intro fuel
  induction fuel with
  | zero => intro attempt le h; omega
  | succ f ih =>
      intro attempt le _ hinv hfail
      have h0 : fn attempt = Except.error (errs attempt) := by
        simpa using hfail 0 (by omega)
      cases f with
      | zero =>
          have hnlt : ¬ (attempt + 1 < maxR) := by omega
          rw [retryAux_step_error_last fn maxR base 0 attempt le (errs attempt) h0 hnlt,
            retryAux_zero_some]
          constructor
          · show Except.error (errs attempt) = Except.error (errs (maxR - 1))
            have ha : attempt = maxR - 1 := by omega
            rw [ha]
          · rfl
      | succ f2 =>
          have hlt : attempt + 1 < maxR := by omega
          have hr := ih (attempt + 1) (some (errs attempt)) (by omega) (by omega)
            (fun i hi => by
              have hsh := hfail (i + 1) (by omega)
              have hq : attempt + (i + 1) = attempt + 1 + i := by omega
              rwa [hq] at hsh)
          rw [retryAux_step_error fn maxR base (f2 + 1) attempt le (errs attempt) h0 hlt]
          exact ⟨hr.1, by rw [show ((retryAux fn maxR base (f2 + 1) (attempt + 1)
            (some (errs attempt))).1,
              (retryAux fn maxR base (f2 + 1) (attempt + 1) (some (errs attempt))).2.1 + 1,
              (retryAux fn maxR base (f2 + 1) (attempt + 1) (some (errs attempt))).2.2).2.1 =
            (retryAux fn maxR base (f2 + 1) (attempt + 1) (some (errs attempt))).2.1 + 1 from rfl,
            hr.2]⟩

theorem retryAux_delay_floor {T : Type} (fn : Nat → Except String T) (maxR base : Nat)
    (h : ∀ i e, fn i = Except.error e → isRateLimit e = true) :
    ∀ (fuel attempt : Nat) (le : Option String) (d : Nat),
      d ∈ (retryAux fn maxR base fuel attempt le).2.2 → 10000 ≤ d := by
  intro fuel
  induction fuel with
  | zero => intro attempt le d hd; simp [retryAux] at hd
  | succ f ih =>
      intro attempt le d hd
      cases hfx : fn attempt with
      | ok v => simp [retryAux, hfx] at hd
      | error e =>
          by_cases hlt : attempt + 1 < maxR
          · simp only [retryAux, hfx, if_pos hlt] at hd
            rcases List.mem_cons.mp hd with h1 | h1
            · subst h1
              rw [h attempt e hfx]
              simp only [computeDelay, if_pos]
              exact le_max_right _ _
            · exact ih (attempt + 1) (some e) d h1
          · simp only [retryAux, hfx, if_neg hlt] at hd
            exact ih (attempt + 1) (some e) d hd

/-- C5: when the operation fails on exactly the first `k` attempts (with
`k < maxRetries`) and then succeeds, `retryWithBackoff` invokes it exactly
`k + 1` times, returns the successful result, and the delays slept are the
first `k` computed delays (`baseDelayMs * 2^attempt`, rate-limit floor
applied per error message); when all `maxRetries` attempts fail, the last
error is re-raised after exactly `maxRetries` invocations. -/
theorem c5_retry_spec {T : Type} (fn : Nat → Except String T) (errs : Nat → String)
    (v : T) (maxRetries baseDelayMs k : Nat) :
    (k < maxRetries → (∀ i, i < k → fn i = Except.error (errs i)) → fn k = Except.ok v →
      retryWithBackoff fn maxRetries baseDelayMs =
        (Except.ok v, k + 1,
          (List.range k).map fun i => computeDelay baseDelayMs i (isRateLimit (errs i)))) ∧
    (0 < maxRetries → (∀ i, i < maxRetries → fn i = Except.error (errs i)) →
      (retryWithBackoff fn maxRetries baseDelayMs).1 = Except.error (errs (maxRetries - 1)) ∧
      (retryWithBackoff fn maxRetries baseDelayMs).2.1 = maxRetries) ∧
    (∀ a, computeDelay baseDelayMs a false = baseDelayMs * 2 ^ a) := by
  refine ⟨?_, ?_, ?_⟩
  · intro hk hfail hsucc
    have h := retryAux_succeeds fn maxRetries baseDelayMs errs v k maxRetries 0 none hk
      (by omega) (fun i hi => by simpa using hfail i hi) (by simpa using hsucc)
    rw [retryWithBackoff, h, expectedDelays_eq_map]
    simp
  · intro hpos hfail
    exact retryAux_exhaust fn maxRetries baseDelayMs errs maxRetries 0 none hpos (by omega)
      (fun i hi => by simpa using hfail i hi)
  · intro a; rfl

/-- C5 witness: a concrete operation failing twice then succeeding is called
3 times with delays 2000 and 4000 ms; a concrete operation that always fails
has its last error re-raised. -/
theorem c5_witness :
    retryWithBackoff (fun i => if i < 2 then Except.error "boom" else Except.ok 7) 5 2000 =
      (Except.ok 7, 3, [2000, 4000]) ∧
    (retryWithBackoff (fun _ => (Except.error "E" : Except String Nat)) 3 100).1 =
      Except.error "E" := by
  constructor
  · have h := (c5_retry_spec (fun i => if i < 2 then Except.error "boom" else Except.ok 7)
      (fun _ => "boom") 7 5 2000 2).1 (by omega) (by decide) (by decide)
    rw [h]
    decide
  · exact ((c5_retry_spec (fun _ => (Except.error "E" : Except String Nat))
      (fun _ => "E") 0 3 100 0).2.1 (by omega) (fun i _ => rfl)).1

/-- C6: when every failure of the operation is classified as rate-limited —
its message contains `"429"`, `"rate"` or `"quota"`, which is exactly
`isRateLimit` — every delay `retryWithBackoff` sleeps is at least 10000 ms;
indeed the computed rate-limited delay is exactly
`max (baseDelayMs * 2^attempt) 10000`. -/
theorem c6_rate_limit_floor {T : Type} (fn : Nat → Except String T)
    (maxRetries baseDelayMs : Nat)
    (h : ∀ i e, fn i = Except.error e → isRateLimit e = true) :
    (∀ d ∈ (retryWithBackoff fn maxRetries baseDelayMs).2.2, 10000 ≤ d) ∧
    (∀ a msg, isRateLimit msg = true →
      computeDelay baseDelayMs a (isRateLimit msg) = max (baseDelayMs * 2 ^ a) 10000) := by
  constructor
  · intro d hd
    exact retryAux_delay_floor fn maxRetries baseDelayMs h maxRetries 0 none d hd
  · intro a msg hmsg
    rw [hmsg]
    rfl

/-- C6 witness: with a constant `"quota exceeded"` failure (rate-limited via
the `"quota"` token, no `"429"` present) the first slept delay is 10000 ms
even though `2000 * 2^0 = 2000`, and the computed delay for a `"rate"`-token
message equals the 10-second floor. -/
theorem c6_witness :
    10000 ≤ ((retryWithBackoff (fun _ => (Except.error "quota exceeded" : Except String Nat))
        3 2000).2.2.headD 0) ∧
    computeDelay 2000 0 (isRateLimit "rate limit") = max (2000 * 2 ^ 0) 10000 := by
  have h := c6_rate_limit_floor (fun _ => (Except.error "quota exceeded" : Except String Nat))
    3 2000 (fun i e he => by cases he; decide)
  exact ⟨h.1 _ (by decide), h.2 0 "rate limit" (by decide)⟩

-- ------------------------------------------------------------------
-- Claims about the pipeline steps
-- ------------------------------------------------------------------

/-- C7 counterexample: when the mutation succeeds but the usage-report
(`track`) call fails, the save step does NOT succeed — the `catch` re-throws
the track error, so the step result is that error (and the committed
mutation would be re-run by the host scheduler's retry of the step). -/
theorem c7_track_failure_counterexample :
    saveToDatabaseStep
        { mutationResult := Except.ok "user-1",
          trackResult := fun _ => Except.error "track failed" } =
      { result := Except.error "track failed", mutationCalls := 1, trackCalls := 1 } := rfl

/-- C7 (amended): when the mutation succeeds and the usage-report call
fails, the failure propagates and the save step fails with that error (the
mutation having already been invoked once); when the mutation itself fails,
no usage event is reported and the step fails with the mutation error. -/
theorem c7_save_step_spec (deps : SaveDeps) (uid e : String) :
    (deps.mutationResult = Except.ok uid → deps.trackResult uid = Except.error e →
      (saveToDatabaseStep deps).result = Except.error e ∧
      (saveToDatabaseStep deps).mutationCalls = 1 ∧
      (saveToDatabaseStep deps).trackCalls = 1) ∧
    (deps.mutationResult = Except.error e →
      (saveToDatabaseStep deps).trackCalls = 0 ∧
      (saveToDatabaseStep deps).result = Except.error e) := by
  constructor
  · intro hm ht
    simp [saveToDatabaseStep, hm, ht]
  · intro hm
    simp [saveToDatabaseStep, hm]

/-- C7 witness: concrete runs — track failure after a successful mutation
makes the step fail, and a failed mutation is never followed by a track
call. -/
theorem c7_witness :
    ((saveToDatabaseStep
        { mutationResult := Except.ok "user-1",
          trackResult := fun _ => Except.error "track failed" }).result =
      Except.error "track failed" ∧
      (saveToDatabaseStep
        { mutationResult := Except.ok "user-1",
          trackResult := fun _ => Except.error "track failed" }).mutationCalls = 1 ∧
      (saveToDatabaseStep
        { mutationResult := Except.ok "user-1",
          trackResult := fun _ => Except.error "track failed" }).trackCalls = 1) ∧
    ((saveToDatabaseStep
        { mutationResult := (Except.error "db down" : Except String String),
          trackResult := fun _ => Except.ok () }).trackCalls = 0 ∧
      (saveToDatabaseStep
        { mutationResult := (Except.error "db down" : Except String String),
          trackResult := fun _ => Except.ok () }).result = Except.error "db down") :=
  ⟨(c7_save_step_spec _ "user-1" "track failed").1 rfl rfl,
   (c7_save_step_spec _ "user-1" "db down").2 rfl⟩

/-- The environment of the C9 scenario: credential absent, document fetch
succeeding with the bytes `"%PDF"`. -/
def c9env : ExtractEnv :=
  { apiKeyConfigured := false, fetchOutcome := Except.ok [37, 80, 68, 70],
    aiOutcome := Except.ok "" }

/-- C9 counterexample: with the credential absent and the fetch succeeding,
the configuration error is raised only AFTER the document fetch — the trace
of network calls preceding the error is `[fetchDoc]`, not empty as the claim
requires. -/
theorem c9_fetch_before_config_counterexample :
    extractStepTrace c9env =
      ([NetCall.fetchDoc],
        Except.error "GEMINI_API_KEY environment variable is not configured. Set it in .env.local") ∧
      ([NetCall.fetchDoc] : List NetCall) ≠ [] :=
  ⟨rfl, by decide⟩

/-- C9 (amended): when the credential is absent, no call to the AI provider
(neither the connectivity probe nor the model call) is ever made, and — when
the fetch returns non-empty bytes — the step fails with the configuration
error, the document fetch having already happened. -/
theorem c9_no_ai_call_without_key (env : ExtractEnv)
    (hk : env.apiKeyConfigured = false) :
    (NetCall.probeAI ∉ (extractStepTrace env).1 ∧
      NetCall.callAI ∉ (extractStepTrace env).1) ∧
    ∀ bytes, env.fetchOutcome = Except.ok bytes → bytes.length ≠ 0 →
      extractStepTrace env =
        ([NetCall.fetchDoc],
          Except.error "GEMINI_API_KEY environment variable is not configured. Set it in .env.local") := by
  constructor
  · cases hf : env.fetchOutcome with
    | error e => simp [extractStepTrace, hf]
    | ok bytes =>
        by_cases hb : bytes.length = 0
        · simp [extractStepTrace, hf, hb]
        · simp [extractStepTrace, hf, hb, hk]
  · intro bytes hf hb
    simp [extractStepTrace, hf, hb, hk]

/-- C9 witness: in the concrete no-credential scenario no AI-provider call
appears in the trace and the step fails with the configuration error. -/
theorem c9_witness :
    NetCall.probeAI ∉ (extractStepTrace c9env).1 ∧
    NetCall.callAI ∉ (extractStepTrace c9env).1 ∧
    extractStepTrace c9env =
      ([NetCall.fetchDoc],
        Except.error "GEMINI_API_KEY environment variable is not configured. Set it in .env.local") := by
  have h := c9_no_ai_call_without_key c9env rfl
  exact ⟨h.1.1, h.1.2, h.2 [37, 80, 68, 70] rfl (by decide)⟩
